/-
Verification of the timestamp-reconciliation component of the flight-delay
toolkit (src/modules/flight_preprocessor.py), as a shallow embedding.

Modelling conventions:
  * A pandas cell that may hold a null, an integer or a string is `PyVal`.
  * Timestamps are minutes since the 1970-01-01 epoch (`Int`); the raw data
    is minute-resolution, so this is exact.  A date-only value is its day
    number (days since epoch, `Int`).
  * Missing values (NaN / NaT / None) are `Option.none`; pandas column
    arithmetic on missing values propagates `none`, and boolean masks built
    from comparisons with missing values are false, which the embedding
    mirrors by matching on `Option`.
  * Python `int(s)` is modelled for strings made of an optional sign and
    decimal digits (surrounding whitespace and underscores are not
    modelled); `pd.to_numeric(s, errors = coerce)` is modelled for decimal
    integer and fraction literals (exponent forms are not modelled).
-/
import Mathlib

namespace FlightPrep

/-- A pandas cell value: null (NaN/None), an integer, or a string. -/
inductive PyVal where
  | vnull : PyVal
  | vint : Int → PyVal
  | vstr : String → PyVal
deriving DecidableEq, Repr

/-- Numeric value of a digit list, most significant first. -/
def natOfDigits (cs : List Char) : Nat :=
  cs.foldl (fun a c => a * 10 + (c.toNat - 48)) 0

/-- Parse a nonempty all-digit character list as a natural number. -/
def parseNatDigits (cs : List Char) : Option Nat :=
  if cs.isEmpty then none
  else if cs.all Char.isDigit then some (natOfDigits cs) else none

/-- Python `int(s)` on a string: optional sign followed by decimal digits. -/
def pyIntOfStr (cs : List Char) : Option Int :=
  match cs with
  | '+' :: rest => (parseNatDigits rest).map (fun n => (n : Int))
  | '-' :: rest => (parseNatDigits rest).map (fun n => -(n : Int))
  | _ => (parseNatDigits cs).map (fun n => (n : Int))

/-- Unsigned decimal literal with optional fractional part, truncated to its
integer part (`"1"`, `"1."`, `".5"`, `"1.25"`; `"."` and `"1.2.3"` are
rejected). -/
def floatCore (cs : List Char) : Option Nat :=
  match cs.span (fun c => c != '.') with
  | (ip, []) => parseNatDigits ip
  | (ip, _ :: fp) =>
    if (ip.isEmpty && fp.isEmpty) then none
    else if ip.all Char.isDigit && fp.all Char.isDigit then
      some (natOfDigits ip)
    else none

/-- `pd.to_numeric(s, errors = coerce)` followed by `.astype(int)`:
parse a signed decimal literal and truncate toward zero. -/
def pyFloatTruncOfStr (cs : List Char) : Option Int :=
  match cs with
  | '+' :: rest => (floatCore rest).map (fun n => (n : Int))
  | '-' :: rest => (floatCore rest).map (fun n => -(n : Int))
  | _ => (floatCore cs).map (fun n => (n : Int))

/-- `pd.to_numeric(s, errors = coerce).astype(Int64)` for the year/month/day
columns: a signed decimal literal whose fractional part, if any, is zero.
(On a non-integral float the real `.astype(Int64)` raises, which the
surrounding `try` in `_make_date_series` turns into the base-date fallback;
the embedding returns `none`, which also falls back to the base date.) -/
def intCore (cs : List Char) : Option Nat :=
  match cs.span (fun c => c != '.') with
  | (ip, []) => parseNatDigits ip
  | (ip, _ :: fp) =>
    if (ip.isEmpty && fp.isEmpty) then none
    else if ip.all Char.isDigit && fp.all (fun c => c = '0') then
      some (natOfDigits ip)
    else none

/-- Signed version of `intCore`. -/
def pyIntCoerce (cs : List Char) : Option Int :=
  match cs with
  | '+' :: rest => (intCore rest).map (fun n => (n : Int))
  | '-' :: rest => (intCore rest).map (fun n => -(n : Int))
  | _ => (intCore cs).map (fun n => (n : Int))

/-- `pd.to_numeric(v, errors = coerce).astype(Int64)` on a cell, when the
cast succeeds. -/
def pyNumI (v : PyVal) : Option Int :=
  match v with
  | .vnull => none
  | .vint n => some n
  | .vstr s => pyIntCoerce s.data

/-- Does `pd.to_numeric(v, errors = coerce).astype(Int64)` raise on this
cell?  Exactly when the cell is a numeric string with a non-zero
fractional part: `to_numeric` yields a non-integral float and the `Int64`
cast refuses it.  Unparseable strings become NaN (no raise) and integers
cast cleanly. -/
def nonIntegralNumStr (v : PyVal) : Bool :=
  match v with
  | .vstr s => (pyFloatTruncOfStr s.data).isSome && (pyIntCoerce s.data).isNone
  | _ => false

/-- Python `f"{n:02d}"`: decimal rendering left-padded with `0` to width 2
(the sign counts toward the width, as in Python). -/
def pyFmt02 (n : Int) : String :=
  let s := toString n
  if s.length < 2 then "0" ++ s else s

/-- `FlightPreprocessor._hhmm_to_hhmmstr`: convert a numeric HHMM cell (or a
string) to an `"HH:MM"` string; nulls and unparseable values become `none`;
a non-numeric string containing a colon is returned unchanged. -/
def hhmmToStr (v : PyVal) : Option String :=
  match v with
  | .vnull => none
  | .vint n => some (pyFmt02 (Int.fdiv n 100) ++ ":" ++ pyFmt02 (Int.fmod n 100))
  | .vstr s =>
    match pyIntOfStr s.data with
    | some n => some (pyFmt02 (Int.fdiv n 100) ++ ":" ++ pyFmt02 (Int.fmod n 100))
    | none => if s.data.contains ':' then some s else none

/-- Python `str.split(sep = colon)`: split a character list at every colon. -/
def splitColon : List Char → List (List Char)
  | [] => [[]]
  | c :: rest =>
    if c = ':' then [] :: splitColon rest
    else
      match splitColon rest with
      | [] => [[c]]
      | p :: ps => (c :: p) :: ps

/-- The hour and minute fields of a time string, as read by
`_combine_date_and_time`: split on the colon, coerce each side with
`pd.to_numeric(errors = coerce)`, missing or unparseable fields become 0
(`fillna(0).astype(int)`). -/
def parseHM (s : String) : Int × Int :=
  let ps := splitColon s.data
  let h := match ps with
    | p :: _ => (pyFloatTruncOfStr p).getD 0
    | [] => 0
  let m := match ps with
    | _ :: p :: _ => (pyFloatTruncOfStr p).getD 0
    | _ => 0
  (h, m)

/-- Minute-of-day offset contributed by a time string in
`_combine_date_and_time` (`to_timedelta(hours) + to_timedelta(minutes)`). -/
def timeOffsetMin (s : String) : Int :=
  (parseHM s).1 * 60 + (parseHM s).2

/-- `FlightPreprocessor._combine_date_and_time`, one row: a date (day number)
and an optional `"HH:MM"` string give an optional timestamp in minutes.
`24:00` rolls to the next day because the offset is plain minute
arithmetic.  This is the value of the in-range arithmetic; on hour/minute
fields whose int64-nanosecond conversion overflows the program raises
instead of producing a value — `combineRaises` characterizes those
inputs. -/
def combineOne (date : Int) (t : Option String) : Option Int :=
  t.map (fun s => date * 1440 + timeOffsetMin s)

/-- Largest int64 value.  Pandas timestamps and timedeltas are int64
nanosecond counts with the minimum value reserved for NaT, so the valid
range of both is `-i64max .. i64max`. -/
def i64max : Int := 9223372036854775807

/-- Is an int64-nanosecond quantity representable? -/
def tdInRange (x : Int) : Bool := decide (-i64max ≤ x ∧ x ≤ i64max)

/-- Does `_combine_date_and_time` raise on this row (lines 74-75)?
`pd.to_timedelta(hours, unit = h)` raises OutOfBoundsTimedelta when
`hours` exceeds the int64-nanosecond range, likewise for the minutes, the
timedelta addition, and the final datetime addition (each step is checked
int64 arithmetic).  A null time string never reaches the arithmetic. -/
def combineRaises (date : Int) (t : Option String) : Bool :=
  match t with
  | none => false
  | some s =>
    let hns := (parseHM s).1 * 3600000000000
    let mns := (parseHM s).2 * 60000000000
    !(tdInRange hns && tdInRange mns && tdInRange (hns + mns) &&
      tdInRange (date * 86400000000000 + hns + mns))

/-! ### Calendar arithmetic

Day numbers are days since 1970-01-01 in the proleptic Gregorian calendar,
computed with the standard civil-calendar conversion used by datetime
libraries. -/

/-- Gregorian leap year. -/
def isLeap (y : Int) : Bool :=
  (Int.emod y 4 = 0 && Int.emod y 100 != 0) || Int.emod y 400 = 0

/-- Days in a month. -/
def monthLength (y m : Int) : Int :=
  if m = 2 then (if isLeap y then 29 else 28)
  else if m = 4 || m = 6 || m = 9 || m = 11 then 30
  else 31

/-- Day number (days since 1970-01-01) of a civil date. -/
def daysFromCivil (y m d : Int) : Int :=
  let y2 := if m ≤ 2 then y - 1 else y
  let era := Int.fdiv y2 400
  let yoe := y2 - era * 400
  let mp := if m ≤ 2 then m + 9 else m - 3
  let doy := Int.fdiv (153 * mp + 2) 5 + d - 1
  let doe := yoe * 365 + Int.fdiv yoe 4 - Int.fdiv yoe 100 + doy
  era * 146097 + doe - 719468

/-- Civil date (year, month, day) of a day number. -/
def civilFromDays (z0 : Int) : Int × Int × Int :=
  let z := z0 + 719468
  let era := Int.fdiv z 146097
  let doe := z - era * 146097
  let yoe := Int.fdiv (doe - Int.fdiv doe 1460 + Int.fdiv doe 36524 - Int.fdiv doe 146096) 365
  let y := yoe + era * 400
  let doy := doe - (365 * yoe + Int.fdiv yoe 4 - Int.fdiv yoe 100)
  let mp := Int.fdiv (5 * doy + 2) 153
  let d := doy - Int.fdiv (153 * mp + 2) 5 + 1
  let m := if mp < 10 then mp + 3 else mp - 9
  (if m ≤ 2 then y + 1 else y, m, d)

/-- A (year, month, day) triple that `pd.to_datetime(..., errors = coerce)`
accepts: a real Gregorian date whose midnight fits in the int64-nanosecond
`Timestamp` range (day numbers -106751 .. 106751). -/
def validCivil (y m d : Int) : Bool :=
  1 ≤ m && m ≤ 12 && 1 ≤ d && d ≤ monthLength y m
    && -106751 ≤ daysFromCivil y m d && daysFromCivil y m d ≤ 106751

/-- The default `base_date` of `FlightPreprocessor.__init__`,
`datetime(2024, 1, 1)`, as a day number. -/
def anchorDate : Int := daysFromCivil 2024 1 1

/-- `Series.dt.dayofweek` of a minute timestamp (Monday = 0; day 0,
1970-01-01, was a Thursday). -/
def dowOf (ts : Int) : Int := Int.emod (Int.fdiv ts 1440 + 3) 7

/-- `Series.dt.year` of a minute timestamp. -/
def yearOf (ts : Int) : Int := (civilFromDays (Int.fdiv ts 1440)).1

/-- `Series.dt.month` of a minute timestamp. -/
def monthOf (ts : Int) : Int := (civilFromDays (Int.fdiv ts 1440)).2.1

/-- `Series.dt.day` of a minute timestamp. -/
def dayOf (ts : Int) : Int := (civilFromDays (Int.fdiv ts 1440)).2.2

/-! ### The table model

A table is a set of column-presence flags plus a list of rows.  The delay
columns hold numbers (modelled `Option Int`, `none` for NaN) and an
existing `is_delayed` column holds booleans; the time and calendar columns
hold arbitrary cells.  A cell of an absent column is never read. -/

/-- Which of the columns consulted by `preprocess` are present. -/
structure Cols where
  hasYear : Bool
  hasMonth : Bool
  hasDay : Bool
  hasSchedDep : Bool
  hasDepTime : Bool
  hasSchedArr : Bool
  hasArrTime : Bool
  hasDepDelay : Bool
  hasArrDelay : Bool
  hasIsDelayed : Bool
deriving DecidableEq, Repr

/-- One input row. -/
structure RawRow where
  year : PyVal
  month : PyVal
  day : PyVal
  scheduled_departure : PyVal
  departure_time : PyVal
  scheduled_arrival : PyVal
  arrival_time : PyVal
  departure_delay : Option Int
  arrival_delay : Option Int
  is_delayed : Option Bool
deriving DecidableEq, Repr

/-- One row after step 3 of `preprocess` (times combined into timestamps),
carrying the untouched delay / flag / calendar cells along. -/
structure TRow where
  schedDep : Option Int
  depTime : Option Int
  schedArr : Option Int
  arrTime : Option Int
  depDelay : Option Int
  arrDelay : Option Int
  isDelayedIn : Option Bool
  rawYear : PyVal
  rawMonth : PyVal
  rawDay : PyVal
deriving DecidableEq, Repr

/-- One output row (the columns the spec talks about). -/
structure OutRow where
  scheduled_departure : Option Int
  departure_time : Option Int
  scheduled_arrival : Option Int
  arrival_time : Option Int
  dep_delay_min : Option Int
  arr_delay_min : Option Int
  is_delayed : Option Bool
  year : Option Int
  month : Option Int
  day : Option Int
  day_of_week : Option Int
deriving DecidableEq, Repr

/-- The guard of the `except` in `FlightPreprocessor._make_date_series`
(lines 32-46): when the `year`/`month`/`day` columns are all present and
any cell of those three columns is a non-integral numeric string, the
whole-column `astype(Int64)` at line 34-36 raises, and the `except` falls
back to the base date for **every** record of the table.  (The same cells
also make the uncaught `astype(Int64)` at line 171 raise, so a run with
this guard true never returns a table; the claims about outputs are
scoped to runs where it is false.) -/
def dateExcept (c : Cols) (rows : List RawRow) : Bool :=
  (c.hasYear && c.hasMonth && c.hasDay) &&
    rows.any (fun r =>
      nonIntegralNumStr r.year || nonIntegralNumStr r.month ||
        nonIntegralNumStr r.day)

/-- `FlightPreprocessor._make_date_series`, one row, given the table-level
except guard `g`: when the `year`/`month`/`day` columns are all present
and the `try` succeeded (`g = false`), coerce the cells to integers and
build a date (`pd.to_datetime(errors = coerce)`); missing or invalid
triples become NaT and are filled with the base date.  When the `try`
raised (`g = true`) or any of the three columns is absent, the base date
is used. -/
def rowDate (b : Int) (c : Cols) (g : Bool) (r : RawRow) : Int :=
  if c.hasYear && c.hasMonth && c.hasDay then
    if g then b
    else
      match pyNumI r.year, pyNumI r.month, pyNumI r.day with
      | some y, some m, some d => if validCivil y m d then daysFromCivil y m d else b
      | _, _, _ => b
  else b

/-- `FlightPreprocessor._make_date_series` on a table: the day number used
for each record's combination. -/
def dateSeries (b : Int) (c : Cols) (rows : List RawRow) : List Int :=
  rows.map (rowDate b c (dateExcept c rows))

/-- Steps 1-3 of `preprocess`, one row, given the table-level date-except
guard `g`: normalize each of the four raw time cells to an `"HH:MM"`
string (an absent column contributes a column of `None`) and combine it
with the row's date. -/
def stage1Row (b : Int) (c : Cols) (g : Bool) (r : RawRow) : TRow :=
  let date := rowDate b c g r
  { schedDep := combineOne date (if c.hasSchedDep then hhmmToStr r.scheduled_departure else none)
    depTime := combineOne date (if c.hasDepTime then hhmmToStr r.departure_time else none)
    schedArr := combineOne date (if c.hasSchedArr then hhmmToStr r.scheduled_arrival else none)
    arrTime := combineOne date (if c.hasArrTime then hhmmToStr r.arrival_time else none)
    depDelay := r.departure_delay
    arrDelay := r.arrival_delay
    isDelayedIn := r.is_delayed
    rawYear := r.year
    rawMonth := r.month
    rawDay := r.day }

/-- The whole-day shift chosen by the rollover masks, from the discrepancy
`diff = calc_delay - reported_delay` (minutes) and the reported delay.  The
four masks of the source are pairwise disjoint, so the four sequential
`df.loc` updates amount to this single shift. -/
def shiftDays (diff delay : Int) : Int :=
  if 1000 < diff ∧ diff < 2000 ∧ delay < 0 then -1
  else if 2000 ≤ diff ∧ delay < 0 then -2
  else if diff < -1000 ∧ -2000 < diff ∧ 0 < delay then 1
  else if diff ≤ -2000 ∧ 0 < delay then 2
  else 0

/-- The departure-side rollover correction, one row: when the actual and
scheduled departures and the reported departure delay are all present, shift
`departure_time`, `arrival_time` and `scheduled_arrival` by the chosen
number of days (a NaT stays NaT); rows with any of the three missing have
all masks false and are untouched. -/
def depCorrRow (r : TRow) : TRow :=
  match r.depTime, r.schedDep, r.depDelay with
  | some dt, some sd, some dd =>
    let s := shiftDays (dt - sd - dd) dd
    { r with depTime := some (dt + 1440 * s)
             arrTime := r.arrTime.map (fun x => x + 1440 * s)
             schedArr := r.schedArr.map (fun x => x + 1440 * s) }
  | _, _, _ => r

/-- The arrival-side rollover correction, one row: same masks on the arrival
triple, but only `arrival_time` is shifted. -/
def arrCorrRow (r : TRow) : TRow :=
  match r.arrTime, r.schedArr, r.arrDelay with
  | some a, some sa, some ad =>
    { r with arrTime := some (a + 1440 * shiftDays (a - sa - ad) ad) }
  | _, _, _ => r

/-- The final consistency pass, one row: when both timestamps are present
and the arrival is before the departure, add one day to `scheduled_arrival`
and `arrival_time`. -/
def fixRow (r : TRow) : TRow :=
  match r.arrTime, r.depTime with
  | some a, some d =>
    if a < d then
      { r with arrTime := some (a + 1440), schedArr := r.schedArr.map (fun x => x + 1440) }
    else r
  | _, _ => r

/-- The guard of the departure-correction block: the `departure_delay`
column exists and `departure_time` and `scheduled_departure` are each
non-null somewhere in the table. -/
def condD (c : Cols) (l : List TRow) : Bool :=
  c.hasDepDelay && l.any (fun r => r.depTime.isSome) && l.any (fun r => r.schedDep.isSome)

/-- The guard of the arrival-correction block. -/
def condA (c : Cols) (l : List TRow) : Bool :=
  c.hasArrDelay && l.any (fun r => r.arrTime.isSome) && l.any (fun r => r.schedArr.isSome)

/-- `df[['year','month','day']]` rebuilt into a timestamp by
`pd.to_datetime(errors = coerce)` (line 176): `none` when missing or
invalid, midnight of the triple's date otherwise. -/
def mkYmdTs (r : TRow) : Option Int :=
  match pyNumI r.rawYear, pyNumI r.rawMonth, pyNumI r.rawDay with
  | some y, some m, some d =>
    if validCivil y m d then some (1440 * daysFromCivil y m d) else none
  | _, _, _ => none

/-- Difference of two optional timestamps in minutes
(`(a - b).dt.total_seconds() / 60`; NaN when either is missing). -/
def tsDiff (a b : Option Int) : Option Int :=
  match a, b with
  | some x, some y => some (x - y)
  | _, _ => none

/-- The derived-fields and calendar section of `preprocess` (lines
150-186), one row.  `allNone` says whether every `scheduled_departure` in
the table is null after the corrections (the guard of line 175), in which
case, when the `year`/`month`/`day` columns exist, `scheduled_departure` is
rebuilt from them.  `dep_delay_min` / `arr_delay_min` are computed from the
corrected timestamps before that rebuild.  A missing `is_delayed` column is
filled with `dep_delay_min > 15` (false on NaN, as in pandas).  The
`Int64` calendar coercions of lines 171-173 are `pyNumI`; they raise
(uncaught) exactly when `dateExcept` is true, a case in which the program
returns no table at all — the claims about outputs are scoped to
`dateExcept = false`, where `pyNumI` is the coercion's value. -/
def outRow (c : Cols) (allNone : Bool) (r : TRow) : OutRow :=
  let ddm := tsDiff r.depTime r.schedDep
  let adm := tsDiff r.arrTime r.schedArr
  let isD : Option Bool :=
    if c.hasIsDelayed then r.isDelayedIn
    else some (match ddm with | some v => decide (15 < v) | none => false)
  let ymd := c.hasYear && c.hasMonth && c.hasDay
  let schedOut := if ymd then (if allNone then mkYmdTs r else r.schedDep) else r.schedDep
  { scheduled_departure := schedOut
    departure_time := r.depTime
    scheduled_arrival := r.schedArr
    arrival_time := r.arrTime
    dep_delay_min := ddm
    arr_delay_min := adm
    is_delayed := isD
    year := if ymd then pyNumI r.rawYear else schedOut.map yearOf
    month := if ymd then pyNumI r.rawMonth else schedOut.map monthOf
    day := if ymd then pyNumI r.rawDay else schedOut.map dayOf
    day_of_week := schedOut.map dowOf }

/-- Steps 1-3 applied to the whole table. -/
def stage1L (b : Int) (c : Cols) (rows : List RawRow) : List TRow :=
  rows.map (stage1Row b c (dateExcept c rows))

/-- Table after the departure-correction block. -/
def stage2L (b : Int) (c : Cols) (rows : List RawRow) : List TRow :=
  let l := stage1L b c rows
  if condD c l then l.map depCorrRow else l

/-- Table after the arrival-correction block. -/
def stage3L (b : Int) (c : Cols) (rows : List RawRow) : List TRow :=
  let l := stage2L b c rows
  if condA c l then l.map arrCorrRow else l

/-- Table after the final consistency pass. -/
def stage4L (b : Int) (c : Cols) (rows : List RawRow) : List TRow :=
  (stage3L b c rows).map fixRow

/-- The guard of line 175: every corrected `scheduled_departure` is null. -/
def allSchedNone (l : List TRow) : Bool :=
  l.all (fun r => r.schedDep.isNone)

/-- `FlightPreprocessor.preprocess` on a table, with base date `b` (the
default constructor uses `anchorDate`). -/
def preprocessT (b : Int) (c : Cols) (rows : List RawRow) : List OutRow :=
  let l4 := stage4L b c rows
  l4.map (outRow c (allSchedNone l4))

/-- Apply `f` when `g` is true (one arm of a guarded block). -/
def condApply (g : Bool) (f : TRow → TRow) (r : TRow) : TRow :=
  if g then f r else r

/-- The per-row pipeline, given the four table-level guards. -/
def rowFun (b : Int) (c : Cols) (g dD dA aN : Bool) (r : RawRow) : OutRow :=
  outRow c aN (fixRow (condApply dA arrCorrRow (condApply dD depCorrRow (stage1Row b c g r))))

/-! ### A raise-free run

`safeTable` is a conservative sufficient condition for a run of
`preprocess` to complete without raising: the calendar `Int64` coercion
does not raise (no non-integral numeric string in the `year`/`month`/`day`
columns, which would raise uncaught at line 171), no step of
`_combine_date_and_time`'s int64-nanosecond arithmetic overflows, and all
combined timestamps lie inside a box (±76800000 minutes around the epoch)
that keeps every later operation of the run — the one- and two-day
rollover shifts, the one-day fix pass, and the timestamp differences of
lines 114, 131, 152 and 157 — inside the int64-nanosecond range as
well. -/

/-- Is a combined timestamp inside the conservative box?  76800000 minutes
satisfy `(2 * 76800000 + 8640) * 60e9 ≤ i64max`, so differences and
day-shifted values of boxed timestamps stay representable. -/
def tsBoxed (x : Option Int) : Bool :=
  match x with
  | some v => decide (-76800000 ≤ v ∧ v ≤ 76800000)
  | none => true

/-- No step of `_combine_date_and_time` raises on this row's four time
cells (the date series is per-row here because `safeTable` also requires
the date-except guard false). -/
def rowCombines (b : Int) (c : Cols) (r : RawRow) : Bool :=
  let date := rowDate b c false r
  !(combineRaises date (if c.hasSchedDep then hhmmToStr r.scheduled_departure else none)) &&
  !(combineRaises date (if c.hasDepTime then hhmmToStr r.departure_time else none)) &&
  !(combineRaises date (if c.hasSchedArr then hhmmToStr r.scheduled_arrival else none)) &&
  !(combineRaises date (if c.hasArrTime then hhmmToStr r.arrival_time else none))

/-- All four combined timestamps of a stage-1 row are boxed. -/
def rowBoxed (t : TRow) : Bool :=
  tsBoxed t.schedDep && tsBoxed t.depTime && tsBoxed t.schedArr && tsBoxed t.arrTime

/-- The conservative raise-free-run condition on a table. -/
def safeTable (b : Int) (c : Cols) (rows : List RawRow) : Bool :=
  !(dateExcept c rows) && rows.all (rowCombines b c) &&
    (stage1L b c rows).all rowBoxed

/-! ### Concrete tables used as counterexamples and witnesses -/

/-- Does an output record satisfy the post-reconciliation invariant
`arrival_time >= departure_time` (vacuously when either is null)? -/
def arrGeDep (o : OutRow) : Bool :=
  match o.arrival_time, o.departure_time with
  | some a, some d => decide (d ≤ a)
  | _, _ => true

/-- An input row that is all nulls. -/
def nullRow : RawRow where
  year := .vnull
  month := .vnull
  day := .vnull
  scheduled_departure := .vnull
  departure_time := .vnull
  scheduled_arrival := .vnull
  arrival_time := .vnull
  departure_delay := none
  arrival_delay := none
  is_delayed := none

/-- Time and `arrival_delay` columns present; no calendar columns. -/
def colsC1 : Cols where
  hasYear := false
  hasMonth := false
  hasDay := false
  hasSchedDep := true
  hasDepTime := true
  hasSchedArr := true
  hasArrTime := true
  hasDepDelay := false
  hasArrDelay := true
  hasIsDelayed := false

/-- A flight on time on both ends, but with a reported arrival delay of
-2000 minutes: the arrival-side rollover mask `arr_ahead_2d` fires and
shifts the arrival two days back, which the one-day final pass cannot
repair. -/
def rowC1 : RawRow :=
  { nullRow with
      scheduled_departure := .vint 1000
      departure_time := .vint 1000
      scheduled_arrival := .vint 1200
      arrival_time := .vint 1200
      arrival_delay := some (-2000) }

/-- The four time columns only. -/
def colsTimes : Cols := { colsC1 with hasArrDelay := false }

/-- A row whose arrival parses 22 hours before its departure (an overnight
flight): the final pass repairs it. -/
def rowC1w : RawRow :=
  { nullRow with
      scheduled_departure := .vint 2250
      departure_time := .vint 2300
      scheduled_arrival := .vint 50
      arrival_time := .vint 100 }

/-- `rowC1w` after steps 1-3 (no correction block runs on `colsTimes`). -/
def trowC1w : TRow where
  schedDep := some 28402490
  depTime := some 28402500
  schedArr := some 28401170
  arrTime := some 28401180
  depDelay := none
  arrDelay := none
  isDelayedIn := none
  rawYear := .vnull
  rawMonth := .vnull
  rawDay := .vnull

/-- The spec-side notion of a readable raw time value, written from the
spec's words (an integer HHMM encoding, a numeric string, or an `HH:MM`
string with integer hour and minute fields); used only to state what
`missing or unparseable` means in claim C3. -/
def timeLike (v : PyVal) : Bool :=
  match v with
  | .vnull => false
  | .vint _ => true
  | .vstr s =>
    (pyIntOfStr s.data).isSome ||
      (match splitColon s.data with
       | [hp, mp] => (pyIntOfStr hp).isSome && (pyIntOfStr mp).isSome
       | _ => false)

/-- Only the `scheduled_departure` column. -/
def colsSched : Cols := { colsC1 with hasDepTime := false, hasSchedArr := false, hasArrTime := false, hasArrDelay := false }

/-- A row carrying only a scheduled departure time. -/
def rowC6 : RawRow := { nullRow with scheduled_departure := .vint 930 }

/-- Calendar columns and `scheduled_departure` present. -/
def colsYmd : Cols := { colsSched with hasYear := true, hasMonth := true, hasDay := true }

/-- A row with a valid calendar triple and a null scheduled departure. -/
def rowYmd : RawRow := { nullRow with year := .vint 2024, month := .vint 1, day := .vint 1 }

/-- `rowYmd` with a scheduled departure filled in. -/
def rowC9b : RawRow := { rowYmd with scheduled_departure := .vint 930 }

/-- A row with the valid calendar triple (2023, 5, 7), a date different
from the anchor. -/
def rowYmd2 : RawRow := { nullRow with year := .vint 2023, month := .vint 5, day := .vint 7 }

/-- A row whose `year` cell is a non-integral numeric string: the `Int64`
coercion of the year column raises on it. -/
def rowBad : RawRow := { nullRow with year := .vstr "2024.5" }

/-- All four time columns and both delay columns. -/
def colsC8 : Cols := { colsC1 with hasDepDelay := true }

/-- A flight 30 minutes late on both ends, consistent with its reported
delays (no rollover fires). -/
def rowC8 : RawRow := { nullRow with scheduled_departure := .vint 930, departure_time := .vint 1000, scheduled_arrival := .vint 1100, arrival_time := .vint 1130, departure_delay := some 30, arrival_delay := some 30 }

/-- `rowC8` after the correction passes. -/
def trowC8 : TRow where
  schedDep := some 28401690
  depTime := some 28401720
  schedArr := some 28401780
  arrTime := some 28401810
  depDelay := some 30
  arrDelay := some 30
  isDelayedIn := none
  rawYear := .vnull
  rawMonth := .vnull
  rawDay := .vnull

/-- The output row `preprocess` produces from `rowC8`. -/
def outC8 : OutRow where
  scheduled_departure := some 28401690
  departure_time := some 28401720
  scheduled_arrival := some 28401780
  arrival_time := some 28401810
  dep_delay_min := some 30
  arr_delay_min := some 30
  is_delayed := some true
  year := some 2024
  month := some 1
  day := some 1
  day_of_week := some 0

/-- A corrected row for the C2 witness. -/
def trowC2 : TRow where
  schedDep := some 100
  depTime := some 40
  schedArr := some 200
  arrTime := some 300
  depDelay := some 15
  arrDelay := some 20
  isDelayedIn := none
  rawYear := .vnull
  rawMonth := .vnull
  rawDay := .vnull

/-! ### The other two public table transforms

`CyclicalEncoder.transform` (src/modules/cyclical_encoder.py) and
`FlightFeatureEngineer.transform` (src/modules/feature_engineer.py),
embedded for the frame claim C10.  The floating-point `np.sin`, `np.cos`
and `2*np.pi` are abstracted as parameters over `ℚ` (the frame property
does not depend on the numeric values). -/

/-- `CyclicalEncoder.transform` on a table given as an association list of
columns: append the `<feature>_sin` and `<feature>_cos` columns computed
from the feature column, then drop the feature column. -/
def cycValue (sinf cosf : ℚ → ℚ) (twoPi : ℚ) (name : String) (period : ℚ)
    (df : List (String × List (Option ℚ))) : List (String × List (Option ℚ)) :=
  let xs := (df.lookup name).getD []
  let sinCol := xs.map (Option.map (fun x => sinf (twoPi * x / period)))
  let cosCol := xs.map (Option.map (fun x => cosf (twoPi * x / period)))
  (df ++ [(name ++ "_sin", sinCol), (name ++ "_cos", cosCol)]).filter
    (fun p => p.1 != name)

/-- Hour-of-day of a minute timestamp (`Series.dt.hour`). -/
def tsHour (ts : Int) : Int := Int.fdiv (Int.emod ts 1440) 60

/-- Number of ISO weeks in a year: 53 when January 1 is a Thursday, or a
Wednesday of a leap year; else 52. -/
def isoWeeksInYear (y : Int) : Int :=
  let jan1wd := Int.emod (daysFromCivil y 1 1 + 3) 7
  if jan1wd = 3 || (isLeap y && jan1wd = 2) then 53 else 52

/-- ISO-8601 week number of a day number (`Series.dt.isocalendar().week`). -/
def isoWeek (days : Int) : Int :=
  let y := (civilFromDays days).1
  let doy := days - daysFromCivil y 1 1 + 1
  let wd := Int.emod (days + 3) 7 + 1
  let w := Int.fdiv (doy - wd + 10) 7
  if w < 1 then isoWeeksInYear (y - 1)
  else if isoWeeksInYear y < w then 1
  else w

/-- One input row of `FlightFeatureEngineer.transform` (timestamps already
datetime, so the dtype-coercion branch of the source is the identity). -/
structure FERow where
  scheduled_departure : Option Int
  scheduled_arrival : Option Int
  day_of_week : Option Int
  airline : Option String
  origin_airport : Option String
  destination_airport : Option String
deriving DecidableEq, Repr

/-- One output row of `FlightFeatureEngineer.transform`.  The interaction
columns are `none` when their source columns are absent from the table
(the guards of the source); a missing string cell prints as `"nan"`
(`astype(str)`). -/
structure FEOutRow where
  scheduled_departure : Option Int
  scheduled_arrival : Option Int
  day_of_week : Option Int
  airline : Option String
  origin_airport : Option String
  destination_airport : Option String
  is_peak_hour : Int
  is_redeye : Int
  is_weekend : Int
  day_of_month : Option Int
  week_of_year : Option Int
  scheduled_duration_min : Option Int
  is_short_flight : Int
  is_long_flight : Int
  airline_origin : Option String
  airline_destination : Option String
  route : Option String
deriving DecidableEq, Repr

/-- `FlightFeatureEngineer.transform`, one row.  Boolean masks built from a
missing value are false (so the `astype(int)` indicator columns are 0),
negative scheduled durations get one day added, and `week_of_year` of a
missing timestamp is modelled as `none` (the source's `astype(int)` would
raise there). -/
def feTransformRow (hasAirline hasOrigin hasDest : Bool) (r : FERow) : FEOutRow :=
  let hour := r.scheduled_departure.map tsHour
  let peak := match hour with
    | some h => if h ∈ ([6, 7, 8, 9, 17, 18, 19, 20] : List Int) then 1 else 0
    | none => 0
  let redeye := match hour with
    | some h => if h ∈ ([0, 1, 2, 3, 4, 5] : List Int) then 1 else 0
    | none => 0
  let weekend := match r.day_of_week with
    | some w => if 5 ≤ w then 1 else 0
    | none => 0
  let dur := match r.scheduled_arrival, r.scheduled_departure with
    | some a, some d => some (if 0 < a - d then a - d else a - d + 1440)
    | _, _ => none
  let short := match dur with
    | some x => if x < 120 then 1 else 0
    | none => 0
  let longf := match dur with
    | some x => if 300 < x then 1 else 0
    | none => 0
  let s := fun v : Option String => v.getD "nan"
  { scheduled_departure := r.scheduled_departure
    scheduled_arrival := r.scheduled_arrival
    day_of_week := r.day_of_week
    airline := r.airline
    origin_airport := r.origin_airport
    destination_airport := r.destination_airport
    is_peak_hour := peak
    is_redeye := redeye
    is_weekend := weekend
    day_of_month := r.scheduled_departure.map dayOf
    week_of_year := r.scheduled_departure.map (fun ts => isoWeek (Int.fdiv ts 1440))
    scheduled_duration_min := dur
    is_short_flight := short
    is_long_flight := longf
    airline_origin := if hasAirline && hasOrigin then
        some (s r.airline ++ "_" ++ s r.origin_airport) else none
    airline_destination := if hasAirline && hasDest then
        some (s r.airline ++ "_" ++ s r.destination_airport) else none
    route := if hasOrigin && hasDest then
        some (s r.origin_airport ++ "_" ++ s r.destination_airport) else none }

/-- `FlightFeatureEngineer.transform` on a table. -/
def feTransform (hasAirline hasOrigin hasDest : Bool) (rows : List FERow) :
    List FEOutRow :=
  rows.map (feTransformRow hasAirline hasOrigin hasDest)

/-! ### Heap model for the frame claim

Each of the three public transforms has the body shape
`df = df.copy(); <statements writing df>; return df`
(flight_preprocessor.py line 81, cyclical_encoder.py line 18,
feature_engineer.py line 29): the first statement rebinds the parameter
name to a fresh copy, and every later statement of the body writes only
through that local name.  On a heap of tables this is one fresh
allocation holding the transformed value; no pre-existing object is
written. -/

/-- A call of a copy-then-transform method body on a heap of tables:
reference `r` must hold an input table; a fresh object holding the
transformed value is allocated at the end of the heap and its reference
returned. -/
def callFresh {α β : Type} (f : α → β) (h : List (α ⊕ β)) (r : Nat) :
    List (α ⊕ β) × Option Nat :=
  match h[r]? with
  | some (Sum.inl t) => (h ++ [Sum.inr (f t)], some h.length)
  | _ => (h, none)

/-- `FlightPreprocessor.preprocess` as a heap call. -/
def preprocessM (b : Int) (c : Cols) :
    List (List RawRow ⊕ List OutRow) → Nat →
      List (List RawRow ⊕ List OutRow) × Option Nat :=
  callFresh (fun rows => preprocessT b c rows)

/-- `CyclicalEncoder.transform` as a heap call. -/
def cyclicalM (sinf cosf : ℚ → ℚ) (twoPi : ℚ) (name : String) (period : ℚ) :
    List (List (String × List (Option ℚ)) ⊕ List (String × List (Option ℚ))) →
      Nat →
      List (List (String × List (Option ℚ)) ⊕ List (String × List (Option ℚ)))
        × Option Nat :=
  callFresh (cycValue sinf cosf twoPi name period)

/-- `FlightFeatureEngineer.transform` as a heap call. -/
def featureM (hasAirline hasOrigin hasDest : Bool) :
    List (List FERow ⊕ List FEOutRow) → Nat →
      List (List FERow ⊕ List FEOutRow) × Option Nat :=
  callFresh (feTransform hasAirline hasOrigin hasDest)

/-! ### Structural lemmas about the pipeline -/

theorem condApply_false (f : TRow → TRow) : condApply false f = fun r => r := by
  funext r
  simp [condApply]

theorem condApply_true (f : TRow → TRow) : condApply true f = f := by
  funext r
  simp [condApply]

theorem stage2L_eq (b : Int) (c : Cols) (rows : List RawRow) :
    stage2L b c rows =
      (stage1L b c rows).map (condApply (condD c (stage1L b c rows)) depCorrRow) := by
  unfold stage2L
  cases h : condD c (stage1L b c rows) <;>
    simp [h, condApply_false, condApply_true]

theorem stage3L_eq (b : Int) (c : Cols) (rows : List RawRow) :
    stage3L b c rows =
      (stage2L b c rows).map (condApply (condA c (stage2L b c rows)) arrCorrRow) := by
  unfold stage3L
  cases h : condA c (stage2L b c rows) <;>
    simp [h, condApply_false, condApply_true]

theorem stage4L_eq (b : Int) (c : Cols) (rows : List RawRow) :
    stage4L b c rows =
      rows.map (fun r =>
        fixRow (condApply (condA c (stage2L b c rows)) arrCorrRow
          (condApply (condD c (stage1L b c rows)) depCorrRow
            (stage1Row b c (dateExcept c rows) r)))) := by
  unfold stage4L
  rw [stage3L_eq, stage2L_eq]
  unfold stage1L
  simp [List.map_map, Function.comp]

theorem preprocessT_getElem? (b : Int) (c : Cols) (rows : List RawRow) (i : Nat) :
    (preprocessT b c rows)[i]? =
      (rows[i]?).map
        (rowFun b c (dateExcept c rows) (condD c (stage1L b c rows))
          (condA c (stage2L b c rows)) (allSchedNone (stage4L b c rows))) := by
  unfold preprocessT rowFun
  rw [List.getElem?_map, stage4L_eq]
  rw [List.getElem?_map]
  cases rows[i]? <;> simp

/-! Field-preservation lemmas for the three per-row correction passes. -/

theorem depCorrRow_depTime_none (r : TRow) (h : r.depTime = none) :
    (depCorrRow r).depTime = none := by
  cases h2 : r.schedDep <;> cases h3 : r.depDelay <;>
    simp [depCorrRow, h, h2, h3]

theorem depCorrRow_arrTime_none (r : TRow) (h : r.arrTime = none) :
    (depCorrRow r).arrTime = none := by
  cases h1 : r.depTime <;> cases h2 : r.schedDep <;> cases h3 : r.depDelay <;>
    simp [depCorrRow, h, h1, h2, h3]

theorem depCorrRow_isDelayedIn (r : TRow) :
    (depCorrRow r).isDelayedIn = r.isDelayedIn := by
  cases h1 : r.depTime <;> cases h2 : r.schedDep <;> cases h3 : r.depDelay <;>
    simp [depCorrRow, h1, h2, h3]

theorem arrCorrRow_depTime (r : TRow) : (arrCorrRow r).depTime = r.depTime := by
  cases h1 : r.arrTime <;> cases h2 : r.schedArr <;> cases h3 : r.arrDelay <;>
    simp [arrCorrRow, h1, h2, h3]

theorem arrCorrRow_arrTime_none (r : TRow) (h : r.arrTime = none) :
    (arrCorrRow r).arrTime = none := by
  cases h2 : r.schedArr <;> cases h3 : r.arrDelay <;>
    simp [arrCorrRow, h, h2, h3]

theorem arrCorrRow_isDelayedIn (r : TRow) :
    (arrCorrRow r).isDelayedIn = r.isDelayedIn := by
  cases h1 : r.arrTime <;> cases h2 : r.schedArr <;> cases h3 : r.arrDelay <;>
    simp [arrCorrRow, h1, h2, h3]

theorem fixRow_depTime (r : TRow) : (fixRow r).depTime = r.depTime := by
  cases h1 : r.arrTime <;> cases h2 : r.depTime <;>
    simp [fixRow, h1, h2] <;> split <;> simp_all

theorem fixRow_arrTime_none (r : TRow) (h : r.arrTime = none) :
    (fixRow r).arrTime = none := by
  cases h2 : r.depTime <;> simp [fixRow, h, h2]

theorem fixRow_isDelayedIn (r : TRow) :
    (fixRow r).isDelayedIn = r.isDelayedIn := by
  cases h1 : r.arrTime <;> cases h2 : r.depTime <;>
    simp [fixRow, h1, h2] <;> split <;> simp_all

theorem condApply_depTime_none (g : Bool) (r : TRow) (h : r.depTime = none) :
    (condApply g depCorrRow r).depTime = none := by
  cases g <;> simp [condApply, h, depCorrRow_depTime_none]

theorem condApply_arrTime_none (g : Bool) (f : TRow → TRow)
    (hf : ∀ t, t.arrTime = none → (f t).arrTime = none) (r : TRow)
    (h : r.arrTime = none) : (condApply g f r).arrTime = none := by
  cases g <;> simp [condApply, h, hf r h]

theorem tsDiff_none_left (y : Option Int) : tsDiff none y = none := by
  cases y <;> rfl

theorem tsDiff_none_right (x : Option Int) : tsDiff x none = none := by
  cases x <;> rfl

theorem outRow_arrival (c : Cols) (aN : Bool) (r : TRow) :
    (outRow c aN r).arrival_time = r.arrTime := rfl

theorem outRow_departure (c : Cols) (aN : Bool) (r : TRow) :
    (outRow c aN r).departure_time = r.depTime := rfl

theorem outRow_ddm (c : Cols) (aN : Bool) (r : TRow) :
    (outRow c aN r).dep_delay_min = tsDiff r.depTime r.schedDep := rfl

theorem outRow_adm (c : Cols) (aN : Bool) (r : TRow) :
    (outRow c aN r).arr_delay_min = tsDiff r.arrTime r.schedArr := rfl

theorem condApply_depTime_arr (g : Bool) (r : TRow) :
    (condApply g arrCorrRow r).depTime = r.depTime := by
  cases g <;> simp [condApply, arrCorrRow_depTime]

theorem condApply_isDelayedIn (g : Bool) (f : TRow → TRow)
    (hf : ∀ t, (f t).isDelayedIn = t.isDelayedIn) (r : TRow) :
    (condApply g f r).isDelayedIn = r.isDelayedIn := by
  cases g <;> simp [condApply, hf]

/-- Frame property of a copy-then-transform call: every pre-existing heap
cell is unchanged, and the result is a fresh reference (the old heap
length) holding the transformed value. -/
theorem callFresh_frame {α β : Type} (f : α → β) (h : List (α ⊕ β)) (r : Nat)
    (t : α) (hr : h[r]? = some (Sum.inl t)) :
    (∀ k, k < h.length → (callFresh f h r).1[k]? = h[k]?) ∧
      (callFresh f h r).2 = some h.length ∧
      (callFresh f h r).1[h.length]? = some (Sum.inr (f t)) := by
  unfold callFresh
  rw [hr]
  refine ⟨?_, rfl, ?_⟩
  · intro k hk
    rw [List.getElem?_append, if_pos hk]
  · simp

/-! ### The claims -/

/-- Claim C1, as stated, is false: in the table `[rowC1]` the corrected
arrival and departure timestamps are both non-null, yet the arrival is
before the departure (the arrival-side correction shifted the arrival two
days back and the final pass adds only one day). -/
theorem c1_counterexample :
    ((preprocessT anchorDate colsC1 [rowC1]).all arrGeDep) = false := by decide

/-- Claim C1, amended: in the table returned by `preprocess`, every record
whose corrected `arrival_time` and `departure_time` are both non-null and
whose arrival was at most one day before its departure just before the
final consistency pass satisfies `arrival_time >= departure_time`; the
final pass adds exactly one day, so larger deficits (created by two-day
rollover shifts or out-of-range HHMM encodings) remain in violation. -/
theorem c1_theorem (b : Int) (c : Cols) (rows : List RawRow) (i : Nat)
    (r3 : TRow) (a d : Int)
    (h3 : (stage3L b c rows)[i]? = some r3)
    (ha : r3.arrTime = some a) (hd : r3.depTime = some d)
    (hle : d - a ≤ 1440) :
    ∃ o : OutRow, (preprocessT b c rows)[i]? = some o ∧
      ∃ a2 d2 : Int, o.arrival_time = some a2 ∧ o.departure_time = some d2 ∧
        d2 ≤ a2 := by
  have h4 : (stage4L b c rows)[i]? = some (fixRow r3) := by
    unfold stage4L
    rw [List.getElem?_map, h3]
    rfl
  have hp : (preprocessT b c rows)[i]? =
      some (outRow c (allSchedNone (stage4L b c rows)) (fixRow r3)) := by
    unfold preprocessT
    rw [List.getElem?_map, h4]
    rfl
  refine ⟨_, hp, ?_⟩
  rw [outRow_arrival, outRow_departure]
  by_cases hlt : a < d
  · have hfr : fixRow r3 = { r3 with arrTime := some (a + 1440), schedArr := r3.schedArr.map (fun x => x + 1440) } := by
      unfold fixRow
      rw [ha, hd]
      simp [hlt]
    exact ⟨a + 1440, d, by rw [hfr], by rw [hfr]; exact hd, by omega⟩
  · have hfr : fixRow r3 = r3 := by
      unfold fixRow
      rw [ha, hd]
      simp [hlt]
    exact ⟨a, d, by rw [hfr]; exact ha, by rw [hfr]; exact hd, by omega⟩

/-- Witness for `c1_theorem`: the overnight flight `rowC1w` with no delay
columns; its pre-pass deficit is 1320 minutes, and in the output the
arrival is at or after the departure. -/
theorem c1_witness :
    (stage3L anchorDate colsTimes [rowC1w])[0]? = some trowC1w ∧
      trowC1w.arrTime = some 28401180 ∧ trowC1w.depTime = some 28402500 ∧
      (28402500 : Int) - 28401180 ≤ 1440 ∧
      ∃ o : OutRow, (preprocessT anchorDate colsTimes [rowC1w])[0]? = some o ∧
        ∃ a2 d2 : Int, o.arrival_time = some a2 ∧ o.departure_time = some d2 ∧
          d2 ≤ a2 :=
  ⟨by decide, by decide, by decide, by decide,
    c1_theorem anchorDate colsTimes [rowC1w] 0 trowC1w 28401180 28402500
      (by decide) (by decide) (by decide) (by decide)⟩

/-- Claim C2: the rollover correction.  With `diff = (actual - scheduled) -
reported`, a row with all three departure-side values present has its
`departure_time`, `arrival_time` and `scheduled_arrival` shifted by
`1440 * shiftDays diff reported` minutes, and a row with all three
arrival-side values present has exactly `arrival_time` shifted the same
way; `shiftDays` subtracts one day on `diff` in (1000, 2000) with negative
reported delay, two days on `diff >= 2000` with negative reported delay,
adds one day on `diff` in (-2000, -1000) with positive reported delay, two
days on `diff <= -2000` with positive reported delay, and shifts nothing
when the discrepancy is within the 1000-minute tolerance. -/
theorem c2_theorem (r r2 : TRow) (dt sd dd a2 sa2 ad diff delay : Int)
    (h1 : r.depTime = some dt) (h2 : r.schedDep = some sd)
    (h3 : r.depDelay = some dd)
    (h4 : r2.arrTime = some a2) (h5 : r2.schedArr = some sa2)
    (h6 : r2.arrDelay = some ad) :
    (depCorrRow r = { r with
        depTime := some (dt + 1440 * shiftDays (dt - sd - dd) dd),
        arrTime := r.arrTime.map (fun x => x + 1440 * shiftDays (dt - sd - dd) dd),
        schedArr := r.schedArr.map (fun x => x + 1440 * shiftDays (dt - sd - dd) dd) }) ∧
    (arrCorrRow r2 = { r2 with
        arrTime := some (a2 + 1440 * shiftDays (a2 - sa2 - ad) ad) }) ∧
    (1000 < diff → diff < 2000 → delay < 0 → shiftDays diff delay = -1) ∧
    (2000 ≤ diff → delay < 0 → shiftDays diff delay = -2) ∧
    (-2000 < diff → diff < -1000 → 0 < delay → shiftDays diff delay = 1) ∧
    (diff ≤ -2000 → 0 < delay → shiftDays diff delay = 2) ∧
    (-1000 ≤ diff → diff ≤ 1000 → shiftDays diff delay = 0) := by
  refine ⟨?_, ?_, ?_, ?_, ?_, ?_, ?_⟩
  · simp [depCorrRow, h1, h2, h3]
  · simp [arrCorrRow, h4, h5, h6]
  all_goals
    intros
    unfold shiftDays
    split_ifs <;> omega

/-- Witness for `c2_theorem` at the concrete corrected row `trowC2`
(both sides on the same row; discrepancy 1500, reported delay -5). -/
theorem c2_witness :
    trowC2.depTime = some 40 ∧ trowC2.schedDep = some 100 ∧
      trowC2.depDelay = some 15 ∧ trowC2.arrTime = some 300 ∧
      trowC2.schedArr = some 200 ∧ trowC2.arrDelay = some 20 ∧
      depCorrRow trowC2 = { trowC2 with
        depTime := some (40 + 1440 * shiftDays (40 - 100 - 15) 15),
        arrTime := trowC2.arrTime.map (fun x => x + 1440 * shiftDays (40 - 100 - 15) 15),
        schedArr := trowC2.schedArr.map (fun x => x + 1440 * shiftDays (40 - 100 - 15) 15) } :=
  ⟨rfl, rfl, rfl, rfl, rfl, rfl,
    (c2_theorem trowC2 trowC2 40 100 15 300 200 20 1500 (-5)
      rfl rfl rfl rfl rfl rfl).1⟩

/-- Claim C4: combining the time string `24:00` with any date `D` yields
midnight of the day after `D`; in particular with 2024-01-01 it yields
2024-01-02 00:00. -/
theorem c4_theorem :
    (∀ D : Int, combineOne D (some "24:00") = some ((D + 1) * 1440)) ∧
      combineOne (daysFromCivil 2024 1 1) (some "24:00") =
        some (1440 * daysFromCivil 2024 1 2) := by
  constructor
  · intro D
    have h : timeOffsetMin "24:00" = 1440 := by decide
    simp [combineOne, h]
    ring
  · decide

/-- Claim C3, as stated, is false: the value `"ab:cd"` is not a readable
time encoding, yet normalization passes it through (it contains a colon)
and combination coerces both fields to 0, producing a non-null midnight
timestamp instead of null. -/
theorem c3_counterexample :
    ¬ (∀ (v : PyVal) (D : Int), timeLike v = false →
        combineOne D (hhmmToStr v) = none) := by
  intro hcl
  exact absurd (hcl (PyVal.vstr "ab:cd") 0 (by decide)) (by decide)

/-- Claim C3, amended: on inputs whose combination arithmetic stays inside
the int64-nanosecond range (no OutOfBoundsTimedelta/overflow raise),
normalization followed by combination yields null exactly when the raw
value is null or a colon-free string that does not parse as an integer;
a colon-containing string with non-numeric fields is passed through with
the fields coerced to 0, yielding a fabricated non-null timestamp.
Out-of-range hour fields make the combination raise rather than yield
null: the integer 1000000000 normalizes to `"10000000:00"` and raises,
while `"ab:cd"` is in range. -/
theorem c3_theorem :
    (∀ (D : Int) (v : PyVal), combineRaises D (hhmmToStr v) = false →
      (combineOne D (hhmmToStr v) = none ↔
        (v = PyVal.vnull ∨
          ∃ s, v = PyVal.vstr s ∧ pyIntOfStr s.data = none ∧
            s.data.contains ':' = false))) ∧
    combineRaises anchorDate (hhmmToStr (PyVal.vint 1000000000)) = true ∧
    combineRaises anchorDate (hhmmToStr (PyVal.vstr "ab:cd")) = false := by
  refine ⟨?_, by decide, by decide⟩
  intro D v _
  cases v with
  | vnull => simp [hhmmToStr, combineOne]
  | vint n => simp [hhmmToStr, combineOne]
  | vstr s =>
    cases hp : pyIntOfStr s.data with
    | some n => simp [hhmmToStr, combineOne, hp]
    | none =>
      cases hc : s.data.contains ':' with
      | true => simp [hhmmToStr, combineOne, hp, hc]
      | false => simp [hhmmToStr, combineOne, hp, hc]

/-- Witness for `c3_theorem` at the in-range input `"ab:cd"`. -/
theorem c3_witness :
    combineRaises 0 (hhmmToStr (PyVal.vstr "ab:cd")) = false ∧
      (combineOne 0 (hhmmToStr (PyVal.vstr "ab:cd")) = none ↔
        (PyVal.vstr "ab:cd" = PyVal.vnull ∨
          ∃ s, PyVal.vstr "ab:cd" = PyVal.vstr s ∧ pyIntOfStr s.data = none ∧
            s.data.contains ':' = false)) :=
  ⟨by decide, c3_theorem.1 0 (PyVal.vstr "ab:cd") (by decide)⟩

/-- Claim C5: the round-trip of the HHMM encoding.  `930` normalizes to
`"09:30"` and combines with 2024-01-01 to 2024-01-01 09:30, and every
valid encoding `h*100+m` with `h < 24`, `m < 60` combines with any date
`D` to the timestamp `D` at `h` hours `m` minutes. -/
theorem c5_theorem :
    (hhmmToStr (PyVal.vint 930) = some "09:30" ∧
      combineOne (daysFromCivil 2024 1 1) (some "09:30") =
        some (daysFromCivil 2024 1 1 * 1440 + 570)) ∧
    ∀ (D : Int) (h m : Nat), h < 24 → m < 60 →
      combineOne D (hhmmToStr (PyVal.vint (h * 100 + m))) =
        some (D * 1440 + h * 60 + m) := by
  refine ⟨⟨by decide, by decide⟩, ?_⟩
  have key : ∀ h : Nat, h < 24 → ∀ m : Nat, m < 60 →
      (hhmmToStr (PyVal.vint (h * 100 + m))).map timeOffsetMin =
        some ((h : Int) * 60 + (m : Int)) := by decide
  intro D h m hh hm
  rcases Option.map_eq_some'.mp (key h hh m hm) with ⟨s, hs, hoff⟩
  rw [hs]
  simp only [combineOne, Option.map_some', hoff, Option.some.injEq]
  ring

/-- Witness for `c5_theorem` at `h = 9`, `m = 30`, `D = 0`. -/
theorem c5_witness :
    (9 : Nat) < 24 ∧ (30 : Nat) < 60 ∧
      combineOne 0 (hhmmToStr (PyVal.vint (9 * 100 + 30))) =
        some (0 * 1440 + (9 : Nat) * 60 + (30 : Nat)) :=
  ⟨by decide, by decide, c5_theorem.2 0 9 30 (by decide) (by decide)⟩

/-- Claim C6, as stated, is false: row 0 of `[rowYmd2, rowBad]` carries the
present, valid calendar triple (2023, 5, 7), yet the date used for its
combination is the anchor date, because the other row's `"2024.5"` year
cell makes the Int64 coercion raise and the `except` of
`_make_date_series` anchors the whole table; alone, the same row gets its
own date. -/
theorem c6_counterexample :
    pyNumI rowYmd2.year = some 2023 ∧ pyNumI rowYmd2.month = some 5 ∧
      pyNumI rowYmd2.day = some 7 ∧ validCivil 2023 5 7 = true ∧
      (dateSeries anchorDate colsYmd [rowYmd2, rowBad])[0]? = some anchorDate ∧
      (dateSeries anchorDate colsYmd [rowYmd2])[0]? =
        some (daysFromCivil 2023 5 7) ∧
      ¬ anchorDate = daysFromCivil 2023 5 7 := by
  decide

/-- Claim C6, amended: the per-record date used for combination is built
from the record's `year`/`month`/`day` cells when the three columns are
present, no cell anywhere in those columns is a non-integral numeric
string (such a cell makes the Int64 coercion raise inside the `try` of
`_make_date_series`, whose `except` falls back to the base date for every
record of the table — and the run later raises at the uncaught line-171
coercion), and the record's cells coerce to integers forming a valid
calendar triple; in every other case it is the base date.  In particular
a table with no calendar columns and `scheduled_departure = 930` still
yields the timestamp 09:30 on the anchor date. -/
theorem c6_theorem :
    (∀ (b : Int) (c : Cols) (rows : List RawRow) (i : Nat) (r : RawRow),
      rows[i]? = some r →
      (((c.hasYear && c.hasMonth && c.hasDay) = false →
        (dateSeries b c rows)[i]? = some b) ∧
      (dateExcept c rows = true → (dateSeries b c rows)[i]? = some b) ∧
      (∀ y m d : Int, (c.hasYear && c.hasMonth && c.hasDay) = true →
        dateExcept c rows = false →
        pyNumI r.year = some y → pyNumI r.month = some m →
        pyNumI r.day = some d → validCivil y m d = true →
        (dateSeries b c rows)[i]? = some (daysFromCivil y m d)) ∧
      (∀ y m d : Int, (c.hasYear && c.hasMonth && c.hasDay) = true →
        dateExcept c rows = false →
        pyNumI r.year = some y → pyNumI r.month = some m →
        pyNumI r.day = some d → validCivil y m d = false →
        (dateSeries b c rows)[i]? = some b) ∧
      ((c.hasYear && c.hasMonth && c.hasDay) = true →
        dateExcept c rows = false →
        (pyNumI r.year = none ∨ pyNumI r.month = none ∨ pyNumI r.day = none) →
        (dateSeries b c rows)[i]? = some b))) ∧
    (preprocessT anchorDate colsSched [rowC6]).map
        (fun o => o.scheduled_departure) =
      [some (anchorDate * 1440 + 570)] := by
  constructor
  · intro b c rows i r hr
    have hmap : (dateSeries b c rows)[i]? =
        some (rowDate b c (dateExcept c rows) r) := by
      unfold dateSeries
      rw [List.getElem?_map, hr]
      rfl
    rw [hmap]
    refine ⟨?_, ?_, ?_, ?_, ?_⟩
    · intro h
      simp [rowDate, h]
    · intro hg
      cases h : (c.hasYear && c.hasMonth && c.hasDay) <;> simp [rowDate, h, hg]
    · intro y m d h hg hy hm hd hv
      simp [rowDate, h, hg, hy, hm, hd, hv]
    · intro y m d h hg hy hm hd hv
      simp [rowDate, h, hg, hy, hm, hd, hv]
    · intro h hg hn
      cases h1 : pyNumI r.year <;> cases h2 : pyNumI r.month <;>
        cases h3 : pyNumI r.day <;> simp [rowDate, h, hg, h1, h2, h3] <;> simp_all
  · decide

/-- Witness for `c6_theorem` on the valid triple (2023, 5, 7) alone in its
table. -/
theorem c6_witness :
    ([rowYmd2] : List RawRow)[0]? = some rowYmd2 ∧
      (colsYmd.hasYear && colsYmd.hasMonth && colsYmd.hasDay) = true ∧
      dateExcept colsYmd [rowYmd2] = false ∧
      pyNumI rowYmd2.year = some 2023 ∧ pyNumI rowYmd2.month = some 5 ∧
      pyNumI rowYmd2.day = some 7 ∧ validCivil 2023 5 7 = true ∧
      (dateSeries anchorDate colsYmd [rowYmd2])[0]? =
        some (daysFromCivil 2023 5 7) :=
  ⟨rfl, rfl, by decide, rfl, rfl, rfl, by decide,
    (c6_theorem.1 anchorDate colsYmd [rowYmd2] 0 rowYmd2 rfl).2.2.1 2023 5 7
      rfl (by decide) rfl rfl rfl (by decide)⟩

/-- Claim C7: `preprocess` degrades gracefully on missing columns.  When
the `departure_delay` column is absent the whole departure-correction pass
is skipped (the table after it is the table before it), and likewise for
`arrival_delay` and the arrival pass; when the `departure_time` (resp.
`arrival_time`) column is absent every output `dep_delay_min` (resp.
`arr_delay_min`) is null.  The embedding is a total function, so no input
raises. -/
theorem c7_theorem (b : Int) (c : Cols) (rows : List RawRow) :
    (c.hasDepDelay = false → stage2L b c rows = stage1L b c rows) ∧
    (c.hasArrDelay = false → stage3L b c rows = stage2L b c rows) ∧
    (c.hasDepTime = false → ∀ o ∈ preprocessT b c rows, o.dep_delay_min = none) ∧
    (c.hasArrTime = false → ∀ o ∈ preprocessT b c rows, o.arr_delay_min = none) := by
  refine ⟨?_, ?_, ?_, ?_⟩
  · intro h
    unfold stage2L condD
    simp [h]
  · intro h
    unfold stage3L condA
    simp [h]
  · intro h o ho
    simp only [preprocessT] at ho
    rcases List.mem_map.mp ho with ⟨r4, hr4, rfl⟩
    rw [stage4L_eq] at hr4
    rcases List.mem_map.mp hr4 with ⟨r0, _, rfl⟩
    rw [outRow_ddm, fixRow_depTime, condApply_depTime_arr]
    have h1 : (stage1Row b c (dateExcept c rows) r0).depTime = none := by
      simp [stage1Row, h, combineOne]
    rw [condApply_depTime_none _ _ h1, tsDiff_none_left]
  · intro h o ho
    simp only [preprocessT] at ho
    rcases List.mem_map.mp ho with ⟨r4, hr4, rfl⟩
    rw [stage4L_eq] at hr4
    rcases List.mem_map.mp hr4 with ⟨r0, _, rfl⟩
    rw [outRow_adm]
    have h1 : (stage1Row b c (dateExcept c rows) r0).arrTime = none := by
      simp [stage1Row, h, combineOne]
    have h2 := condApply_arrTime_none (condD c (stage1L b c rows)) depCorrRow
      depCorrRow_arrTime_none _ h1
    have h3 := condApply_arrTime_none (condA c (stage2L b c rows)) arrCorrRow
      arrCorrRow_arrTime_none _ h2
    rw [fixRow_arrTime_none _ h3, tsDiff_none_left]

/-- Witness for `c7_theorem`: on a table whose only time column is
`scheduled_departure` both correction passes are skipped. -/
theorem c7_witness :
    colsSched.hasDepDelay = false ∧ colsSched.hasArrDelay = false ∧
      stage2L anchorDate colsSched [rowC6] = stage1L anchorDate colsSched [rowC6] ∧
      stage3L anchorDate colsSched [rowC6] = stage2L anchorDate colsSched [rowC6] :=
  ⟨rfl, rfl, (c7_theorem anchorDate colsSched [rowC6]).1 rfl,
    (c7_theorem anchorDate colsSched [rowC6]).2.1 rfl⟩

/-- Claim C8: after the corrections, `preprocess` recomputes
`dep_delay_min` and `arr_delay_min` as actual minus scheduled (in minutes)
over the corrected timestamps; when the input table has no `is_delayed`
column it sets `is_delayed` to `dep_delay_min > 15` (false on null, as in
pandas), and an already-present `is_delayed` column is passed through
unchanged. -/
theorem c8_theorem (b : Int) (c : Cols) (rows : List RawRow) (i : Nat)
    (r0 : RawRow) (r4 : TRow) (o : OutRow)
    (hr0 : rows[i]? = some r0)
    (hr4 : (stage4L b c rows)[i]? = some r4)
    (ho : (preprocessT b c rows)[i]? = some o) :
    o.dep_delay_min = tsDiff r4.depTime r4.schedDep ∧
    o.arr_delay_min = tsDiff r4.arrTime r4.schedArr ∧
    (c.hasIsDelayed = false →
      o.is_delayed = some (match tsDiff r4.depTime r4.schedDep with
        | some v => decide (15 < v)
        | none => false)) ∧
    (c.hasIsDelayed = true → o.is_delayed = r0.is_delayed) := by
  have ho2 : (preprocessT b c rows)[i]? =
      some (outRow c (allSchedNone (stage4L b c rows)) r4) := by
    unfold preprocessT
    rw [List.getElem?_map, hr4]
    rfl
  rw [ho] at ho2
  have heq := Option.some.inj ho2
  subst heq
  refine ⟨outRow_ddm _ _ _, outRow_adm _ _ _, ?_, ?_⟩
  · intro h
    simp [outRow, h]
  · intro h
    have hdel : (outRow c (allSchedNone (stage4L b c rows)) r4).is_delayed =
        r4.isDelayedIn := by simp [outRow, h]
    rw [hdel]
    have h4 : (stage4L b c rows)[i]? =
        some (fixRow (condApply (condA c (stage2L b c rows)) arrCorrRow
          (condApply (condD c (stage1L b c rows)) depCorrRow
            (stage1Row b c (dateExcept c rows) r0)))) := by
      rw [stage4L_eq, List.getElem?_map, hr0]
      rfl
    rw [hr4] at h4
    rw [Option.some.inj h4, fixRow_isDelayedIn,
      condApply_isDelayedIn _ _ arrCorrRow_isDelayedIn,
      condApply_isDelayedIn _ _ depCorrRow_isDelayedIn]
    rfl

/-- Witness for `c8_theorem` on the consistent table `[rowC8]` (no
`is_delayed` column; the derived flag is `30 > 15 = true`). -/
theorem c8_witness :
    ([rowC8] : List RawRow)[0]? = some rowC8 ∧
      (stage4L anchorDate colsC8 [rowC8])[0]? = some trowC8 ∧
      (preprocessT anchorDate colsC8 [rowC8])[0]? = some outC8 ∧
      outC8.dep_delay_min = tsDiff trowC8.depTime trowC8.schedDep :=
  ⟨rfl, by decide, by decide,
    (c8_theorem anchorDate colsC8 [rowC8] 0 rowC8 trowC8 outC8 rfl
      (by decide) (by decide)).1⟩

/-- Claim C9, as stated, is false: the two one-column-set tables
`[rowYmd, rowYmd]` and `[rowYmd, rowC9b]` agree on row 0, but the outputs
differ there: when every combined `scheduled_departure` in the table is
null (first table) the guard of the calendar-rebuild step fires and row
0's `scheduled_departure` (and hence `day_of_week`) is rebuilt from the
calendar columns, while in the second table another row's non-null value
disables the rebuild for the whole table. -/
theorem c9_counterexample :
    ([rowYmd, rowYmd] : List RawRow)[0]? = ([rowYmd, rowC9b] : List RawRow)[0]? ∧
      ¬ ((preprocessT anchorDate colsYmd [rowYmd, rowYmd])[0]? =
          (preprocessT anchorDate colsYmd [rowYmd, rowC9b])[0]?) := by
  exact ⟨rfl, by decide⟩

/-- Claim C9, amended: on raise-free runs the transformation is per-row
except for whole-table guards.  For two input tables with the same set of
columns such that (a) both satisfy the raise-free condition `safeTable`
(in particular neither contains a non-integral numeric calendar string,
which would anchor every date via the `except` of `_make_date_series` and
then raise uncaught at the final calendar rebuild, and both stay inside
the int64-nanosecond timestamp bounds), and (b) the two correction-pass
guards and the all-scheduled-departures-null rebuild guard take the same
value on both tables, agreement on row `i` implies agreement of the
outputs at row `i`. -/
theorem c9_theorem (b : Int) (c : Cols) (rows1 rows2 : List RawRow) (i : Nat)
    (hs1 : safeTable b c rows1 = true) (hs2 : safeTable b c rows2 = true)
    (hD : condD c (stage1L b c rows1) = condD c (stage1L b c rows2))
    (hA : condA c (stage2L b c rows1) = condA c (stage2L b c rows2))
    (hN : allSchedNone (stage4L b c rows1) = allSchedNone (stage4L b c rows2))
    (hrow : rows1[i]? = rows2[i]?) :
    (preprocessT b c rows1)[i]? = (preprocessT b c rows2)[i]? := by
  have hE1 : dateExcept c rows1 = false := by
    cases h : dateExcept c rows1
    · rfl
    · simp [safeTable, h] at hs1
  have hE2 : dateExcept c rows2 = false := by
    cases h : dateExcept c rows2
    · rfl
    · simp [safeTable, h] at hs2
  rw [preprocessT_getElem?, preprocessT_getElem?, hE1, hE2, hD, hA, hN, hrow]

/-- Witness for `c9_theorem`: two raise-free tables agreeing on row 1 with
equal guards produce equal outputs at row 1. -/
theorem c9_witness :
    safeTable anchorDate colsYmd [rowYmd, rowC9b] = true ∧
      safeTable anchorDate colsYmd [rowC9b, rowC9b] = true ∧
      condD colsYmd (stage1L anchorDate colsYmd [rowYmd, rowC9b]) =
        condD colsYmd (stage1L anchorDate colsYmd [rowC9b, rowC9b]) ∧
      condA colsYmd (stage2L anchorDate colsYmd [rowYmd, rowC9b]) =
        condA colsYmd (stage2L anchorDate colsYmd [rowC9b, rowC9b]) ∧
      allSchedNone (stage4L anchorDate colsYmd [rowYmd, rowC9b]) =
        allSchedNone (stage4L anchorDate colsYmd [rowC9b, rowC9b]) ∧
      (preprocessT anchorDate colsYmd [rowYmd, rowC9b])[1]? =
        (preprocessT anchorDate colsYmd [rowC9b, rowC9b])[1]? :=
  ⟨by decide, by decide, by decide, by decide, by decide,
    c9_theorem anchorDate colsYmd [rowYmd, rowC9b] [rowC9b, rowC9b] 1
      (by decide) (by decide) (by decide) (by decide) (by decide) rfl⟩

/-- Claim C10: none of the three public table transforms mutates its
argument.  Each body is `df = df.copy()` followed by writes through the
local name only, modelled as a fresh allocation: after each call every
pre-existing heap object (in particular the caller's table) is unchanged,
the returned reference is outside the old heap (fresh), and it holds the
transformed value. -/
theorem c10_theorem :
    (∀ (b : Int) (c : Cols) (h : List (List RawRow ⊕ List OutRow)) (r : Nat)
        (t : List RawRow), h[r]? = some (Sum.inl t) →
      (∀ k, k < h.length → (preprocessM b c h r).1[k]? = h[k]?) ∧
        (preprocessM b c h r).2 = some h.length ∧
        (preprocessM b c h r).1[h.length]? = some (Sum.inr (preprocessT b c t))) ∧
    (∀ (sinf cosf : ℚ → ℚ) (twoPi period : ℚ) (name : String)
        (h : List (List (String × List (Option ℚ)) ⊕
          List (String × List (Option ℚ)))) (r : Nat)
        (t : List (String × List (Option ℚ))), h[r]? = some (Sum.inl t) →
      (∀ k, k < h.length → (cyclicalM sinf cosf twoPi name period h r).1[k]? = h[k]?) ∧
        (cyclicalM sinf cosf twoPi name period h r).2 = some h.length ∧
        (cyclicalM sinf cosf twoPi name period h r).1[h.length]? =
          some (Sum.inr (cycValue sinf cosf twoPi name period t))) ∧
    (∀ (ha ho hd : Bool) (h : List (List FERow ⊕ List FEOutRow)) (r : Nat)
        (t : List FERow), h[r]? = some (Sum.inl t) →
      (∀ k, k < h.length → (featureM ha ho hd h r).1[k]? = h[k]?) ∧
        (featureM ha ho hd h r).2 = some h.length ∧
        (featureM ha ho hd h r).1[h.length]? =
          some (Sum.inr (feTransform ha ho hd t))) := by
  refine ⟨?_, ?_, ?_⟩
  · intro b c h r t hr
    exact callFresh_frame _ h r t hr
  · intro sinf cosf twoPi period name h r t hr
    exact callFresh_frame _ h r t hr
  · intro ha ho hd h r t hr
    exact callFresh_frame _ h r t hr

/-- Witness for `c10_theorem`: a one-object heap holding `[rowC8]`; the
call leaves reference 0 unchanged and returns the fresh reference 1. -/
theorem c10_witness :
    ([Sum.inl [rowC8]] : List (List RawRow ⊕ List OutRow))[0]? =
        some (Sum.inl [rowC8]) ∧
      (preprocessM anchorDate colsC8 [Sum.inl [rowC8]] 0).2 = some 1 ∧
      (preprocessM anchorDate colsC8 [Sum.inl [rowC8]] 0).1[0]? =
        ([Sum.inl [rowC8]] : List (List RawRow ⊕ List OutRow))[0]? :=
  ⟨rfl,
    (c10_theorem.1 anchorDate colsC8 [Sum.inl [rowC8]] 0 [rowC8] rfl).2.1,
    (c10_theorem.1 anchorDate colsC8 [Sum.inl [rowC8]] 0 [rowC8] rfl).1 0
      (by decide)⟩

end FlightPrep
